import Mathlib

/-!
# Verification of the chat-attend-go attendance tracker

Shallow embedding of the repository's client-side logic and database schema:

* `ScanQR.handleQRCodeScanned` (src/unnamed/part_000): QR payload parsing,
  course lookup, duplicate check, attendance insert.
* `QRCodeGenerator.qrData` (src/unnamed/part_001): the generated QR payload.
* `ChatAnalytics.loadFakeData`, `courseAttendanceData`, `handleSendEmails`
  (src/src/components/ChatAnalytics.tsx).
* `CreateCourse.handleSubmit` and `courseSchema` (src/src/pages/CreateCourse.tsx).
* The SQL migration (src/supabase/migrations/...): tables, constraints,
  row-level security policies.

JavaScript strings are `String`, JavaScript numbers are `Rat` (no float
arithmetic beyond `Math.floor`/`Math.round` occurs in the modelled code),
timestamps are `Int`.  JSON values are the inductive `JValue`; `JSON.parse`
of a scanned string is modelled by an `Option JValue` argument (`none` for a
parse exception), since JSON.parse/JSON.stringify round-trip on JSON data is
a property of the ECMAScript library, not of this repository.  Network /
database effects are made explicit: each handler returns the updated database
together with the list of database calls it issued and the toast it raised.
-/

set_option autoImplicit false

/-- A JSON value, as produced by `JSON.parse`.  Objects coming out of
`JSON.parse` have unique keys (later duplicates overwrite earlier ones
during parsing), so field lookup takes the first match. -/
inductive JValue where
  | jnull
  | jbool (b : Bool)
  | jnum (q : Rat)
  | jstr (s : String)
  | jarr (elems : List JValue)
  | jobj (fields : List (String × JValue))

/-- First-match field lookup in a JSON object's field list. -/
def lookupField : List (String × JValue) → String → Option JValue
  | [], _ => none
  | (k, v) :: rest, key => if k == key then some v else lookupField rest key

/-- JavaScript member access `obj.key` on a parsed JSON value:
`undefined` (here `none`) unless the value is an object with the field. -/
def getField : JValue → String → Option JValue
  | .jobj fields, key => lookupField fields key
  | _, _ => none

/-- JavaScript truthiness of a JSON value: `null`, `false`, `0`, and the
empty string are falsy; objects and arrays are always truthy. -/
def jsTruthy : JValue → Bool
  | .jnull => false
  | .jbool b => b
  | .jnum q => decide (q ≠ 0)
  | .jstr s => decide (s ≠ "")
  | .jarr _ => true
  | .jobj _ => true

/-- JavaScript truthiness where `none` stands for `undefined`. -/
def jsTruthyOpt : Option JValue → Bool
  | none => false
  | some v => jsTruthy v

/-- JavaScript `a || b` on possibly-undefined values. -/
def jsOr (a b : Option JValue) : Option JValue :=
  match a with
  | some v => if jsTruthy v then some v else b
  | none => b

/-- The string content of a JSON value sent to a `text`/`uuid` column
(the handler only reaches its insert with a string course id, see
`scanQuery_some_jstr`). -/
def jvalString : JValue → String
  | .jstr s => s
  | _ => ""

/-- A row of `public.courses` (SQL migration, lines 23-33). -/
structure Course where
  id : String
  name : String
  code : String
  professor_id : String
  semester : Option String
  year : Option Int
  qr_code_url : Option String
deriving DecidableEq

/-- A row of `public.attendance_records` (SQL migration, lines 36-45). -/
structure AttendanceRecord where
  id : String
  student_id : String
  course_id : String
  checked_in_at : Int
  latitude : Option Rat
  longitude : Option Rat
  location_accuracy : Option Rat
deriving DecidableEq

/-- The database tables touched by the check-in and course-creation flows. -/
structure Db where
  courses : List Course
  attendance_records : List AttendanceRecord
deriving DecidableEq

/-- A geolocation fix, as captured by `navigator.geolocation` in `ScanQR`. -/
structure GeoLocation where
  lat : Rat
  lng : Rat
  accuracy : Rat
deriving DecidableEq

/-- The ambient state of a `ScanQR` scan: the signed-in user (the page
redirects to `/auth` when there is none, so the handler runs with a user),
the `location` React state (possibly still `null`), the local-midnight
bounds `today`/`tomorrow` computed by the handler, the database clock
`now()` used for the `checked_in_at` default, the fresh uuid for the new
row, and an oracle for a database-side insert failure. -/
structure ScanEnv where
  userId : String
  location : Option GeoLocation
  dayStart : Int
  dayEnd : Int
  now : Int
  freshId : String
  insertFails : Bool
deriving DecidableEq

/-- One database/network call issued by the check-in handler. -/
inductive DbCall where
  | selectCourse (courseId : JValue)
  | selectAttendance (studentId : String) (courseId : JValue) (fromTs toTs : Int)
  | insertAttendance (record : AttendanceRecord)

/-- Which terminal branch of `handleQRCodeScanned` was taken. -/
inductive ScanResult where
  | invalidQR
  | courseNotFound
  | alreadyCheckedIn
  | insertError
  | success
deriving DecidableEq

/-- A toast notification (`variant: "destructive"` flag and title). -/
structure Toast where
  destructive : Bool
  title : String
deriving DecidableEq

/-- The observable outcome of one invocation of the check-in handler. -/
structure ScanOutcome where
  db : Db
  calls : List DbCall
  result : ScanResult
  toast : Toast
  scanningStopped : Bool
  navigateScheduled : Bool

/-- Supabase `.single()`: the row when the result set has exactly one row,
otherwise an error (`data` is `null`). -/
def single {α : Type} : List α → Option α
  | [x] => some x
  | _ => none

/-- `.eq("column", courseId)`: does the scanned course-id value match a
`uuid` column content?  Only a string value can match (a non-string value
makes the query fail to match, landing in the same error branch). -/
def matchesId (v : JValue) (id : String) : Bool :=
  match v with
  | .jstr s => id == s
  | _ => false

/-- `supabase.from("courses").select("id, name, code").eq("id", courseId).single()`. -/
def scanQuery (db : Db) (cid : JValue) : Option Course :=
  single (db.courses.filter (fun c => matchesId cid c.id))

/-- The rows of `attendance_records` for student `s` and course `c` whose
`checked_in_at` falls in today's `[dayStart, dayEnd)` window. -/
def todayFilter (env : ScanEnv) (db : Db) (s c : String) : List AttendanceRecord :=
  db.attendance_records.filter (fun r =>
    r.student_id == s && (r.course_id == c &&
      (decide (env.dayStart ≤ r.checked_in_at) && decide (r.checked_in_at < env.dayEnd))))

/-- Number of check-ins of student `s` into course `c` today. -/
def todayCount (env : ScanEnv) (db : Db) (s c : String) : Nat :=
  (todayFilter env db s c).length

/-- The duplicate check:
`.select("id").eq("student_id", user?.id).eq("course_id", courseId)
.gte("checked_in_at", today).lt("checked_in_at", tomorrow).single()`.
The handler discards the error component, so a result set with zero rows
*or two and more rows* both deliver `data = null`. -/
def dupQuery (env : ScanEnv) (db : Db) (cid : JValue) : Option AttendanceRecord :=
  single (db.attendance_records.filter (fun r =>
    r.student_id == env.userId && (matchesId cid r.course_id &&
      (decide (env.dayStart ≤ r.checked_in_at) && decide (r.checked_in_at < env.dayEnd)))))

/-- JavaScript `x || null` on an optional number: a missing *or zero*
value is stored as SQL `null`. -/
def jsNumOrNull : Option Rat → Option Rat
  | none => none
  | some x => if x = 0 then none else some x

/-- The row inserted by the handler:
`{ student_id: user?.id, course_id: courseId, latitude: location?.lat || null,
longitude: location?.lng || null, location_accuracy: location?.accuracy || null }`
with `id` and `checked_in_at` filled by the database defaults. -/
def newAttendanceRecord (env : ScanEnv) (cid : JValue) : AttendanceRecord :=
  { id := env.freshId
    student_id := env.userId
    course_id := jvalString cid
    checked_in_at := env.now
    latitude := jsNumOrNull (env.location.map GeoLocation.lat)
    longitude := jsNumOrNull (env.location.map GeoLocation.lng)
    location_accuracy := jsNumOrNull (env.location.map GeoLocation.accuracy) }

/-- `courseData.course_id || courseData.id` after
`try { courseData = JSON.parse(qrData) } catch { courseData = { course_id: qrData } }`. -/
def extractedCourseId (parsed : Option JValue) (qrText : String) : Option JValue :=
  let courseData : JValue :=
    match parsed with
    | some v => v
    | none => .jobj [("course_id", .jstr qrText)]
  jsOr (getField courseData "course_id") (getField courseData "id")

/-- The extracted course id, defaulting to `null` (only used to phrase
theorems uniformly; the handler never queries with the default). -/
def cidOf (parsed : Option JValue) (qrText : String) : JValue :=
  (extractedCourseId parsed qrText).getD .jnull

/-- The scan payload passed the `if (!courseId)` validity check. -/
def validQR (parsed : Option JValue) (qrText : String) : Prop :=
  jsTruthyOpt (extractedCourseId parsed qrText) = true

/-- The `Invalid QR Code` terminal branch. -/
def invalidOutcome (db : Db) : ScanOutcome :=
  { db := db
    calls := []
    result := .invalidQR
    toast := { destructive := true, title := "Invalid QR Code" }
    scanningStopped := true
    navigateScheduled := false }

/-- The part of `handleQRCodeScanned` after course-id extraction:
course lookup, duplicate check, insert, in that order, each gating the
next; every terminal branch calls `stopScanning()`. -/
def scanWithCourseId (env : ScanEnv) (db : Db) (cid : JValue) : ScanOutcome :=
  match scanQuery db cid with
  | none =>
    { db := db
      calls := [.selectCourse cid]
      result := .courseNotFound
      toast := { destructive := true, title := "Course not found" }
      scanningStopped := true
      navigateScheduled := false }
  | some _course =>
    match dupQuery env db cid with
    | some _ =>
      { db := db
        calls := [.selectCourse cid,
                  .selectAttendance env.userId cid env.dayStart env.dayEnd]
        result := .alreadyCheckedIn
        toast := { destructive := true, title := "Already checked in" }
        scanningStopped := true
        navigateScheduled := false }
    | none =>
      let newRec := newAttendanceRecord env cid
      if env.insertFails then
        { db := db
          calls := [.selectCourse cid,
                    .selectAttendance env.userId cid env.dayStart env.dayEnd,
                    .insertAttendance newRec]
          result := .insertError
          toast := { destructive := true, title := "Check-in failed" }
          scanningStopped := true
          navigateScheduled := false }
      else
        { db := { db with attendance_records := db.attendance_records ++ [newRec] }
          calls := [.selectCourse cid,
                    .selectAttendance env.userId cid env.dayStart env.dayEnd,
                    .insertAttendance newRec]
          result := .success
          toast := { destructive := false, title := "Check-in successful!" }
          scanningStopped := true
          navigateScheduled := true }

/-- `handleQRCodeScanned` (src/unnamed/part_000, lines 292-391).
`parsed` is the outcome of `JSON.parse(qrData)` (`none` when it throws),
`qrText` the raw scanned string used by the fallback `{ course_id: qrData }`. -/
def handleQRCodeScanned (env : ScanEnv) (db : Db) (parsed : Option JValue)
    (qrText : String) : ScanOutcome :=
  match extractedCourseId parsed qrText with
  | none => invalidOutcome db
  | some cid =>
    if jsTruthy cid then scanWithCourseId env db cid
    else invalidOutcome db

/-- The QR payload built by `QRCodeGenerator` (src/unnamed/part_001,
lines 19-24): `JSON.stringify` of this object; `JSON.parse` on the scanner
side recovers it. -/
def qrDataValue (courseId courseName courseCode timestamp : String) : JValue :=
  .jobj [("course_id", .jstr courseId),
         ("course_name", .jstr courseName),
         ("course_code", .jstr courseCode),
         ("timestamp", .jstr timestamp)]

/-! ## CreateCourse (src/src/pages/CreateCourse.tsx) -/

/-- The `zod` parse result of `courseSchema` on a submitted form. -/
structure ParsedCourseForm where
  name : String
  code : String
  semester : Option String
  year : Option String
deriving DecidableEq

/-- `formData.get(x) || undefined`: a missing or empty field becomes
`undefined`. -/
def jsStrOrUndef : Option String → Option String
  | none => none
  | some s => if s = "" then none else some s

/-- `courseSchema.parse` (CreateCourse.tsx, lines 13-18, 43-48):
`name`/`code` must be present strings of length at least 1
(`formData.get` yields `null` for a missing field, which fails
`z.string()`; the empty string fails `.min(1)`); `semester`/`year` are
`z.string().optional()` and arrive already mapped through `|| undefined`. -/
def zodParseCourse (name code semester year : Option String) :
    Option ParsedCourseForm :=
  match name, code with
  | some n, some c =>
    if n = "" ∨ c = "" then none
    else some { name := n, code := c, semester := semester, year := year }
  | _, _ => none

/-- JavaScript `parseInt` on the year field.  The form input has
`type="number"`, so the submitted string is numeric; a non-numeric string
would give `NaN` (modelled `none`), which the integer column would reject. -/
def jsParseInt (s : String) : Option Int :=
  s.toInt?

/-- The object passed to `supabase.from("courses").insert(...)`. -/
structure CourseInsertRow where
  name : String
  code : String
  professor_id : String
  semester : Option String
  year : Option Int
deriving DecidableEq

/-- A database call issued by the course-creation form. -/
inductive CreateCall where
  | insertCourse (row : CourseInsertRow)
deriving DecidableEq

/-- The observable outcome of one `handleSubmit` of the course form. -/
structure CreateOutcome where
  db : Db
  calls : List CreateCall
  toast : Toast
  navigated : Bool
deriving DecidableEq

/-- Ambient state for course creation: signed-in professor, fresh uuid
for the new row, database clock, and an oracle for a database-side insert
failure (e.g. a row-level-security rejection). -/
structure CreateEnv where
  userId : String
  freshId : String
  now : Int
  insertFails : Bool
deriving DecidableEq

/-- `handleSubmit` (CreateCourse.tsx, lines 36-78): zod-validate, then
insert `{ name, code, professor_id: user?.id, semester: data.semester || null,
year: data.year ? parseInt(data.year) : null }`; any thrown error lands in
the destructive "Failed to create course" toast. -/
def handleSubmit (env : CreateEnv) (db : Db)
    (name code semester year : Option String) : CreateOutcome :=
  match zodParseCourse name code (jsStrOrUndef semester) (jsStrOrUndef year) with
  | none =>
    { db := db
      calls := []
      toast := { destructive := true, title := "Failed to create course" }
      navigated := false }
  | some data =>
    let row : CourseInsertRow :=
      { name := data.name
        code := data.code
        professor_id := env.userId
        semester := data.semester
        year := match data.year with
                | some s => jsParseInt s
                | none => none }
    if env.insertFails then
      { db := db
        calls := [.insertCourse row]
        toast := { destructive := true, title := "Failed to create course" }
        navigated := false }
    else
      { db := { db with courses := db.courses ++
                  [{ id := env.freshId
                     name := row.name
                     code := row.code
                     professor_id := row.professor_id
                     semester := row.semester
                     year := row.year
                     qr_code_url := none }] }
        calls := [.insertCourse row]
        toast := { destructive := false, title := "Course created!" }
        navigated := true }

/-! ## ChatAnalytics (src/src/components/ChatAnalytics.tsx) -/

/-- The hard-coded first-name pool (ChatAnalytics.tsx, line 31). -/
def firstNames : List String :=
  ["John", "Jane", "Michael", "Emily", "David", "Sarah", "James", "Jessica",
   "Robert", "Amanda", "William", "Ashley", "Richard", "Melissa", "Joseph",
   "Nicole", "Thomas", "Michelle", "Christopher", "Kimberly"]

/-- The hard-coded last-name pool (ChatAnalytics.tsx, line 32). -/
def lastNames : List String :=
  ["Smith", "Johnson", "Williams", "Brown", "Jones", "Garcia", "Miller",
   "Davis", "Rodriguez", "Martinez", "Hernandez", "Lopez", "Wilson",
   "Anderson", "Thomas", "Taylor", "Moore", "Jackson", "Martin", "Lee"]

/-- A fake student generated by `loadFakeData`. -/
structure FakeStudent where
  id : String
  name : String
  email : String
  attendance : Int
  courseName : String
  courseCode : String
deriving DecidableEq

/-- `Math.floor(r * n)` as a list index, for `r = Math.random()`. -/
def randIndex (r : Rat) (n : Nat) : Nat :=
  (Int.floor (r * (n : Rat))).toNat

/-- `Math.floor(Math.random() * 30) + 15` — the per-course student count. -/
def studentCountDraw (r : Rat) : Nat :=
  (Int.floor (r * 30)).toNat + 15

/-- `Math.floor(Math.random() * 50) + 40` — one student's attendance. -/
def attendanceDraw (r : Rat) : Int :=
  Int.floor (r * 50) + 40

/-- One iteration of the inner loop of `loadFakeData` (lines 40-51).
`rng k`, `rng (k+1)`, `rng (k+2)` are the three `Math.random()` draws. -/
def genStudent (course : Course) (i : Nat) (rng : Nat → Rat) (k : Nat) :
    FakeStudent :=
  let firstName := firstNames.getD (randIndex (rng k) firstNames.length) ""
  let lastName := lastNames.getD (randIndex (rng (k + 1)) lastNames.length) ""
  { id := "student-" ++ course.id ++ "-" ++ toString i
    name := firstName ++ " " ++ lastName
    email := firstName.toLower ++ "." ++ lastName.toLower ++ "@student.edu"
    attendance := attendanceDraw (rng (k + 2))
    courseName := if course.name ≠ "" then course.name else course.code
    courseCode := course.code }

/-- The inner `for` loop: `n` students left to generate, `i` the loop
index, `k` the position in the random stream. -/
def genStudentsAux (course : Course) (rng : Nat → Rat) :
    Nat → Nat → Nat → List FakeStudent
  | 0, _, _ => []
  | n + 1, i, k => genStudent course i rng k :: genStudentsAux course rng n (i + 1) (k + 3)

/-- One iteration of `courses.forEach` in `loadFakeData`: draw the count,
generate that many students, and return the next random-stream position. -/
def genStudentsForCourse (course : Course) (rng : Nat → Rat) (k : Nat) :
    List FakeStudent × Nat :=
  (genStudentsAux course rng (studentCountDraw (rng k)) 0 (k + 1),
   k + 1 + 3 * studentCountDraw (rng k))

/-- `loadFakeData` (ChatAnalytics.tsx, lines 27-57), with `Math.random()`
made explicit as the stream `rng` consumed left to right from position `k`. -/
def loadFakeData : List Course → (Nat → Rat) → Nat → List FakeStudent
  | [], _, _ => []
  | course :: rest, rng, k =>
    (genStudentsForCourse course rng k).1 ++
      loadFakeData rest rng (genStudentsForCourse course rng k).2

/-- The student list produced by `loadFakeData`, consuming the random
stream from its start. -/
def loadFakeDataStudents (courses : List Course) (rng : Nat → Rat) :
    List FakeStudent :=
  loadFakeData courses rng 0

/-- `students.filter(s => s.attendance < 75)` (line 59). -/
def lowAttendanceStudents (students : List FakeStudent) : List FakeStudent :=
  students.filter (fun s => decide (s.attendance < 75))

/-- One entry of the per-course chart data. -/
structure CourseAttendance where
  name : String
  averageAttendance : Int
  studentCount : Nat
deriving DecidableEq

/-- JavaScript `Math.round` (half up). -/
def jsRound (q : Rat) : Int :=
  Int.floor (q + 1 / 2)

/-- `students.filter(s => s.courseCode === course.code)` (line 63). -/
def courseStudents (students : List FakeStudent) (course : Course) : List FakeStudent :=
  students.filter (fun s => s.courseCode == course.code)

/-- `courseAttendanceData` (ChatAnalytics.tsx, lines 62-73). -/
def courseAttendanceData (courses : List Course) (students : List FakeStudent) :
    List CourseAttendance :=
  courses.map fun course =>
    { name := if course.code ≠ "" then course.code else course.name
      averageAttendance :=
        if 0 < (courseStudents students course).length then
          jsRound (((((courseStudents students course).map FakeStudent.attendance).sum : Int) : Rat)
            / ((courseStudents students course).length : Rat))
        else 0
      studentCount := (courseStudents students course).length }

/-- The observable outcome of `handleSendEmails`: the (unchanged) student
list, the network operations performed (none exist in the source), the
`setTimeout` delay awaited, and the toast raised. -/
structure EmailOutcome where
  students : List FakeStudent
  netOps : List String
  delayedMs : Option Nat
  toast : Toast
deriving DecidableEq

/-- `handleSendEmails` (ChatAnalytics.tsx, lines 75-96): with no
low-attendance students it raises a destructive toast and returns;
otherwise it awaits a 1.5 s `setTimeout` and reports success.  No email,
fetch, or supabase call appears anywhere in the function. -/
def handleSendEmails (students : List FakeStudent) : EmailOutcome :=
  if (lowAttendanceStudents students).length = 0 then
    { students := students
      netOps := []
      delayedMs := none
      toast := { destructive := true, title := "No students to email" } }
  else
    { students := students
      netOps := []
      delayedMs := some 1500
      toast := { destructive := false, title := "Warning emails sent!" } }

/-! ## SQL schema and row-level security (src/supabase/migrations/...) -/

/-- The `public.app_role` enum (migration, line 2). -/
inductive AppRole where
  | student
  | professor
  | admin
deriving DecidableEq

/-- A row of `public.user_roles` (migration, lines 14-20). -/
structure UserRole where
  id : String
  user_id : String
  role : AppRole
deriving DecidableEq

/-- A row of `public.profiles` (migration, lines 5-11). -/
structure Profile where
  id : String
  email : String
  full_name : Option String
deriving DecidableEq

/-- `public.has_role(_user_id, _role)` (migration, lines 54-66).
`auth.uid()` is `NULL` for an anonymous caller, and SQL `NULL = x` is not
true, so `none` matches no row. -/
def has_role (roles : List UserRole) (uid : Option String) (r : AppRole) : Bool :=
  roles.any (fun ur => decide (some ur.user_id = uid) && decide (ur.role = r))

/-- A SQL command kind, for row-level security policies. -/
inductive SqlCmd where
  | select
  | insert
  | update
  | delete
deriving DecidableEq

/-- The evaluation context of a policy predicate: `auth.uid()` and the
`user_roles` table consulted by `has_role`. -/
structure RlsCtx where
  authUid : Option String
  user_roles : List UserRole
deriving DecidableEq

/-- The three policies on `public.attendance_records`
(migration, lines 108-122), each as its command kind and predicate.
Postgres policies are permissive: a command is allowed when *some* policy
for that command accepts the row; a command with no policy is denied. -/
def attendancePolicies :
    List (SqlCmd × (RlsCtx → AttendanceRecord → Bool)) :=
  [(.select, fun ctx row =>
      decide (some row.student_id = ctx.authUid)
        || has_role ctx.user_roles ctx.authUid .professor
        || has_role ctx.user_roles ctx.authUid .admin),
   (.insert, fun ctx row => decide (some row.student_id = ctx.authUid)),
   (.update, fun ctx _row =>
      has_role ctx.user_roles ctx.authUid .professor
        || has_role ctx.user_roles ctx.authUid .admin)]

/-- Row-level security on `attendance_records`: OR of the matching
policies' predicates. -/
def attendanceAllowed (cmd : SqlCmd) (ctx : RlsCtx) (row : AttendanceRecord) : Bool :=
  (attendancePolicies.filter (fun p => decide (p.1 = cmd))).any (fun p => p.2 ctx row)

/-- A foreign-key declaration of the migration. -/
structure ForeignKey where
  table : String
  column : String
  refTable : String
  refColumn : String
  onDeleteCascade : Bool
deriving DecidableEq

/-- Every `REFERENCES` clause of the migration, with its `ON DELETE` action
(lines 6, 16, 27, 38, 39 all read `ON DELETE CASCADE`). -/
def schemaForeignKeys : List ForeignKey :=
  [{ table := "profiles", column := "id",
     refTable := "auth.users", refColumn := "id", onDeleteCascade := true },
   { table := "user_roles", column := "user_id",
     refTable := "auth.users", refColumn := "id", onDeleteCascade := true },
   { table := "courses", column := "professor_id",
     refTable := "auth.users", refColumn := "id", onDeleteCascade := true },
   { table := "attendance_records", column := "student_id",
     refTable := "auth.users", refColumn := "id", onDeleteCascade := true },
   { table := "attendance_records", column := "course_id",
     refTable := "courses", refColumn := "id", onDeleteCascade := true }]

/-- The whole relational state, including the referenced `auth.users` ids. -/
structure SchemaDb where
  auth_users : List String
  profiles : List Profile
  user_roles : List UserRole
  courses : List Course
  attendance_records : List AttendanceRecord
deriving DecidableEq

/-- The `UNIQUE(user_id, role)` constraint on `user_roles`
(migration, line 19) as a state predicate. -/
def userRolesUnique (rows : List UserRole) : Prop :=
  rows.Pairwise (fun a b => ¬(a.user_id = b.user_id ∧ a.role = b.role))

/-- Referential integrity of the declared foreign keys. -/
def refIntegrity (db : SchemaDb) : Prop :=
  (∀ p ∈ db.profiles, p.id ∈ db.auth_users) ∧
  (∀ r ∈ db.user_roles, r.user_id ∈ db.auth_users) ∧
  (∀ c ∈ db.courses, c.professor_id ∈ db.auth_users) ∧
  (∀ a ∈ db.attendance_records,
    a.student_id ∈ db.auth_users ∧ a.course_id ∈ db.courses.map Course.id)

/-- `DELETE FROM auth.users WHERE id = uid` with the migration's cascades:
the profile, roles and courses of the user go, and attendance records go
when their student is the user or their course was just deleted. -/
def deleteAuthUser (db : SchemaDb) (uid : String) : SchemaDb :=
  { auth_users := db.auth_users.filter (fun u => !(u == uid))
    profiles := db.profiles.filter (fun p => !(p.id == uid))
    user_roles := db.user_roles.filter (fun r => !(r.user_id == uid))
    courses := db.courses.filter (fun c => !(c.professor_id == uid))
    attendance_records := db.attendance_records.filter (fun a =>
      !(a.student_id == uid) &&
        !(db.courses.any (fun c => c.professor_id == uid && c.id == a.course_id))) }

/-- `DELETE FROM public.courses WHERE id = cid` with the cascade on
`attendance_records.course_id`. -/
def deleteCourse (db : SchemaDb) (cid : String) : SchemaDb :=
  { db with
    courses := db.courses.filter (fun c => !(c.id == cid))
    attendance_records := db.attendance_records.filter (fun a => !(a.course_id == cid)) }

/-- Concrete scan environment used by witnesses and counterexamples. -/
def envW : ScanEnv :=
  { userId := "u", location := none, dayStart := 0, dayEnd := 100,
    now := 10, freshId := "r3", insertFails := false }

/-- Concrete course fixture. -/
def courseW : Course :=
  { id := "c1", name := "Algebra", code := "MATH1", professor_id := "p",
    semester := none, year := none, qr_code_url := none }

/-- Concrete attendance record of student `u` in course `c1`, today. -/
def recW1 : AttendanceRecord :=
  { id := "r1", student_id := "u", course_id := "c1", checked_in_at := 5,
    latitude := none, longitude := none, location_accuracy := none }

/-- A second such record (e.g. produced by a racing double-scan). -/
def recW2 : AttendanceRecord :=
  { id := "r2", student_id := "u", course_id := "c1", checked_in_at := 6,
    latitude := none, longitude := none, location_accuracy := none }

/-- Database fixture: the course exists, no attendance yet. -/
def dbW : Db := { courses := [courseW], attendance_records := [] }

/-- Database fixture: the course exists and student `u` already has two
check-ins today. -/
def dbDup : Db := { courses := [courseW], attendance_records := [recW1, recW2] }

/-- The parsed payload of the QR code generated for course `c1`. -/
def payloadW : Option JValue := some (qrDataValue "c1" "Algebra" "MATH1" "ts")

/-- Scan environment with an obtained geolocation whose latitude is 0
(a point on the equator). -/
def envGeo : ScanEnv := { envW with location := some { lat := 0, lng := 10, accuracy := 5 } }

/-- Concrete course-creation environment for witnesses. -/
def cenvW : CreateEnv := { userId := "p", freshId := "c9", now := 0, insertFails := false }

/-- The constant random stream 1/2, used by witnesses. -/
def rngHalf : Nat → Rat := fun _ => 1 / 2

/-- A concrete fake student with low attendance, used by witnesses. -/
def studentW : FakeStudent :=
  { id := "s1", name := "John Smith", email := "john.smith@student.edu",
    attendance := 50, courseName := "Algebra", courseCode := "MATH1" }

/-! ## Helper lemmas -/

theorem single_eq_some {α : Type} {l : List α} {x : α} :
    single l = some x ↔ l = [x] := by
  cases l with
  | nil => simp [single]
  | cons a t =>
    cases t with
    | nil => simp [single]
    | cons b t2 => simp [single]

theorem single_eq_none_iff {α : Type} {l : List α} :
    single l = none ↔ l.length ≠ 1 := by
  cases l with
  | nil => simp [single]
  | cons a t =>
    cases t with
    | nil => simp [single]
    | cons b t2 => simp [single]

theorem matchesId_true {v : JValue} {id : String} (h : matchesId v id = true) :
    v = .jstr id := by
  cases v <;> simp [matchesId] at h
  subst h
  rfl

/-- If the course lookup succeeds, the queried value was the string of the
found course's id. -/
theorem scanQuery_some_jstr {db : Db} {cid : JValue} {course : Course}
    (h : scanQuery db cid = some course) : cid = .jstr course.id := by
  rw [scanQuery, single_eq_some] at h
  have hmem : course ∈ db.courses.filter (fun c => matchesId cid c.id) := by
    rw [h]; exact List.mem_singleton_self _
  exact matchesId_true (List.mem_filter.mp hmem).2

/-- The duplicate query coincides with `single` of `todayFilter` once the
queried value is a string. -/
theorem dupQuery_eq_todayFilter (env : ScanEnv) (db : Db) (c : String) :
    dupQuery env db (.jstr c) = single (todayFilter env db env.userId c) := by
  simp [dupQuery, todayFilter, matchesId]

/-! ## Claim theorems -/

/-- C1: for every scanned QR payload the check-in handler's database calls
are, in order, a prefix-closed selection of (1) the course-existence
lookup, (2) the duplicate check, (3) the attendance insert: the call list
is a sublist of that three-call sequence (hence each call happens at most
once — no retry), the duplicate check happens exactly when the payload was
valid and the course lookup succeeded, and the insert happens exactly when
additionally the duplicate check found no existing record. -/
theorem scan_call_sequence (env : ScanEnv) (db : Db) (parsed : Option JValue)
    (qrText : String) :
    List.Sublist (handleQRCodeScanned env db parsed qrText).calls
      [DbCall.selectCourse (cidOf parsed qrText),
       DbCall.selectAttendance env.userId (cidOf parsed qrText) env.dayStart env.dayEnd,
       DbCall.insertAttendance (newAttendanceRecord env (cidOf parsed qrText))] ∧
    (DbCall.selectCourse (cidOf parsed qrText)
        ∈ (handleQRCodeScanned env db parsed qrText).calls ↔
      validQR parsed qrText) ∧
    (DbCall.selectAttendance env.userId (cidOf parsed qrText) env.dayStart env.dayEnd
        ∈ (handleQRCodeScanned env db parsed qrText).calls ↔
      validQR parsed qrText ∧ (scanQuery db (cidOf parsed qrText)).isSome = true) ∧
    (DbCall.insertAttendance (newAttendanceRecord env (cidOf parsed qrText))
        ∈ (handleQRCodeScanned env db parsed qrText).calls ↔
      validQR parsed qrText ∧ (scanQuery db (cidOf parsed qrText)).isSome = true ∧
        dupQuery env db (cidOf parsed qrText) = none) := by
  unfold handleQRCodeScanned cidOf validQR
  cases hE : extractedCourseId parsed qrText with
  | none => simp [invalidOutcome, jsTruthyOpt]
  | some cid =>
    by_cases ht : jsTruthy cid
    · dsimp only [Option.getD]
      rw [if_pos ht]
      unfold scanWithCourseId
      cases hq : scanQuery db cid with
      | none => simp [jsTruthyOpt, ht, hq]
      | some course =>
        cases hd : dupQuery env db cid with
        | some r => simp [jsTruthyOpt, ht, hq, hd]
        | none =>
          by_cases hins : env.insertFails <;>
            simp [jsTruthyOpt, ht, hq, hd, hins, List.Sublist.refl]
    · dsimp only [Option.getD]
      rw [if_neg ht]
      simp [invalidOutcome, jsTruthyOpt, ht]

/-- C2 counterexample: student `u` already has (at least) one attendance
record for course `c1` today — in fact two, as a racing double-scan can
produce — yet scanning the course's QR code inserts a *third* record and
reports success, not `Already checked in`: the handler reads the duplicate
check's `data` while discarding its error, and supabase `.single()`
returns `data = null` whenever the result set does not have exactly one
row, including when it has two or more. -/
theorem scan_dedup_counterexample :
    1 ≤ todayCount envW dbDup "u" "c1" ∧
    (handleQRCodeScanned envW dbDup payloadW "x").result = ScanResult.success ∧
    (handleQRCodeScanned envW dbDup payloadW "x").db.attendance_records.length = 3 := by
  refine ⟨by decide, by decide, by decide⟩

/-- C2 (amended): the duplicate check blocks the insert exactly when the
student has *exactly one* attendance record for the course today (with
zero — or, pathologically, two and more — matching records the insert
proceeds); consequently, sequential scans preserve the invariant "at most
one check-in per student per course per day". -/
theorem scan_dedup_amended (env : ScanEnv) (db : Db) (parsed : Option JValue)
    (qrText : String)
    (hnow1 : env.dayStart ≤ env.now) (hnow2 : env.now < env.dayEnd)
    (hinv : ∀ s c, todayCount env db s c ≤ 1) :
    (∀ s c, todayCount env (handleQRCodeScanned env db parsed qrText).db s c ≤ 1) ∧
    (∀ c : String, extractedCourseId parsed qrText = some (.jstr c) → c ≠ "" →
      (scanQuery db (.jstr c)).isSome = true →
      todayCount env db env.userId c = 1 →
      (handleQRCodeScanned env db parsed qrText).db = db ∧
      (handleQRCodeScanned env db parsed qrText).result = .alreadyCheckedIn ∧
      (handleQRCodeScanned env db parsed qrText).toast.title = "Already checked in") := by
  constructor
  · unfold handleQRCodeScanned
    cases hE : extractedCourseId parsed qrText with
    | none => simpa [invalidOutcome] using hinv
    | some cid =>
      dsimp only
      by_cases ht : jsTruthy cid
      · rw [if_pos ht]
        unfold scanWithCourseId
        cases hq : scanQuery db cid with
        | none => simpa using hinv
        | some course =>
          cases hd : dupQuery env db cid with
          | some r => simpa using hinv
          | none =>
            have hcid : cid = .jstr course.id := scanQuery_some_jstr hq
            subst hcid
            rw [dupQuery_eq_todayFilter] at hd
            have hlen0 : (todayFilter env db env.userId course.id).length = 0 := by
              have h1 := single_eq_none_iff.mp hd
              have h2 := hinv env.userId course.id
              unfold todayCount at h2
              omega
            by_cases hins : env.insertFails
            · simpa [hins] using hinv
            · rw [if_neg (by simp [hins])]
              intro s c
              unfold todayCount todayFilter
              simp only [List.filter_append]
              rw [List.length_append]
              by_cases hp : (fun r : AttendanceRecord =>
                  r.student_id == s && (r.course_id == c &&
                    (decide (env.dayStart ≤ r.checked_in_at) &&
                     decide (r.checked_in_at < env.dayEnd))))
                  (newAttendanceRecord env (.jstr course.id)) = true
              · simp only [newAttendanceRecord, jvalString, Bool.and_eq_true,
                  beq_iff_eq, decide_eq_true_eq] at hp
                obtain ⟨hs, hc, _, _⟩ := hp
                subst hs; subst hc
                have : (List.filter (fun r : AttendanceRecord =>
                    r.student_id == env.userId && (r.course_id == course.id &&
                      (decide (env.dayStart ≤ r.checked_in_at) &&
                       decide (r.checked_in_at < env.dayEnd))))
                    db.attendance_records).length = 0 := by
                  simpa [todayFilter] using hlen0
                simp [this, newAttendanceRecord, jvalString, hnow1, hnow2]
              · rw [Bool.not_eq_true] at hp
                have h2 := hinv s c
                unfold todayCount todayFilter at h2
                simp only [List.filter_cons, List.filter_nil, hp,
                  Bool.false_eq_true, if_false, List.length_nil]
                omega
      · rw [if_neg ht]
        simpa [invalidOutcome] using hinv
  · intro c hE hc hq hcount
    unfold handleQRCodeScanned
    rw [hE]
    dsimp only
    rw [if_pos (by simp [jsTruthy, hc])]
    unfold scanWithCourseId
    obtain ⟨course, hcourse⟩ := Option.isSome_iff_exists.mp hq
    obtain ⟨r, hr⟩ := List.length_eq_one.mp hcount
    rw [hcourse, dupQuery_eq_todayFilter, hr]
    simp [single]

/-- C3: every failing branch of the check-in flow (payload without a course
id, course not found, duplicate check-in, insert error) leaves the database
unchanged, raises a destructive toast, and schedules no navigation; every
terminal branch (success included) stops the scanner; and no call is ever
repeated — the call list is a sublist of the one-shot three-call sequence. -/
theorem scan_error_handling (env : ScanEnv) (db : Db) (parsed : Option JValue)
    (qrText : String) :
    (handleQRCodeScanned env db parsed qrText).scanningStopped = true ∧
    ((handleQRCodeScanned env db parsed qrText).result ≠ ScanResult.success →
      (handleQRCodeScanned env db parsed qrText).db = db ∧
      (handleQRCodeScanned env db parsed qrText).toast.destructive = true ∧
      (handleQRCodeScanned env db parsed qrText).navigateScheduled = false) ∧
    List.Sublist (handleQRCodeScanned env db parsed qrText).calls
      [DbCall.selectCourse (cidOf parsed qrText),
       DbCall.selectAttendance env.userId (cidOf parsed qrText) env.dayStart env.dayEnd,
       DbCall.insertAttendance (newAttendanceRecord env (cidOf parsed qrText))] := by
  unfold handleQRCodeScanned cidOf
  cases hE : extractedCourseId parsed qrText with
  | none => simp [invalidOutcome]
  | some cid =>
    dsimp only [Option.getD]
    by_cases ht : jsTruthy cid
    · rw [if_pos ht]
      unfold scanWithCourseId
      cases hq : scanQuery db cid with
      | none => simp
      | some course =>
        cases hd : dupQuery env db cid with
        | some r => simp
        | none =>
          by_cases hins : env.insertFails
          · simp [hins]
          · simp [hins, List.Sublist.refl]
    · rw [if_neg ht]
      simp [invalidOutcome]

/-- Witness for C3 at a concrete failing input (a payload with no course
id): database unchanged, destructive toast, no navigation. -/
theorem scan_error_handling_witness :
    (handleQRCodeScanned envW dbW (some JValue.jnull) "x").db = dbW ∧
    (handleQRCodeScanned envW dbW (some JValue.jnull) "x").toast.destructive = true ∧
    (handleQRCodeScanned envW dbW (some JValue.jnull) "x").navigateScheduled = false :=
  (scan_error_handling envW dbW (some JValue.jnull) "x").2.1 (by decide)

/-- Witness for C2 (amended) at a concrete input: with exactly one record
already present today, the scan inserts nothing and reports the duplicate. -/
theorem scan_dedup_amended_witness :
    (handleQRCodeScanned envW { courses := [courseW], attendance_records := [recW1] }
        payloadW "x").db = { courses := [courseW], attendance_records := [recW1] } ∧
    (handleQRCodeScanned envW { courses := [courseW], attendance_records := [recW1] }
        payloadW "x").result = ScanResult.alreadyCheckedIn ∧
    (handleQRCodeScanned envW { courses := [courseW], attendance_records := [recW1] }
        payloadW "x").toast.title = "Already checked in" :=
  (scan_dedup_amended envW { courses := [courseW], attendance_records := [recW1] }
      payloadW "x" (by decide) (by decide)
      (fun s c => List.length_filter_le _ _)).2 "c1" rfl (by decide) rfl (by decide)

/-- C4 counterexample: the browser delivered a geolocation with latitude 0,
the check-in succeeds, yet the inserted record stores `latitude = null` —
`location?.lat || null` discards the falsy coordinate 0.  (With
`location = null` the check-in even succeeds with all three fields null.) -/
theorem scan_geolocation_counterexample :
    envGeo.location = some { lat := 0, lng := 10, accuracy := 5 } ∧
    (handleQRCodeScanned envGeo dbW payloadW "x").result = ScanResult.success ∧
    (handleQRCodeScanned envGeo dbW payloadW "x").db.attendance_records =
      [{ id := "r3", student_id := "u", course_id := "c1", checked_in_at := 10,
         latitude := none, longitude := some 10, location_accuracy := some 5 }] :=
  ⟨by decide, by decide, by decide⟩

/-- C4 (amended): on a successful scan the inserted record stores each of
latitude, longitude and accuracy as `location?.x || null`: the captured
value when a location was obtained and the component is nonzero, and SQL
null when no location was obtained or the component equals 0; the check-in
succeeds regardless of whether a location was captured. -/
theorem scan_geolocation_amended (env : ScanEnv) (db : Db) (parsed : Option JValue)
    (qrText : String)
    (h : (handleQRCodeScanned env db parsed qrText).result = ScanResult.success) :
    (handleQRCodeScanned env db parsed qrText).db.attendance_records =
      db.attendance_records ++
        [{ id := env.freshId
           student_id := env.userId
           course_id := jvalString (cidOf parsed qrText)
           checked_in_at := env.now
           latitude := jsNumOrNull (env.location.map GeoLocation.lat)
           longitude := jsNumOrNull (env.location.map GeoLocation.lng)
           location_accuracy := jsNumOrNull (env.location.map GeoLocation.accuracy) }] := by
  revert h
  unfold handleQRCodeScanned cidOf
  cases hE : extractedCourseId parsed qrText with
  | none => intro h; simp [invalidOutcome] at h
  | some cid =>
    dsimp only [Option.getD]
    by_cases ht : jsTruthy cid
    · rw [if_pos ht]
      unfold scanWithCourseId
      cases hq : scanQuery db cid with
      | none => intro h; simp at h
      | some course =>
        cases hd : dupQuery env db cid with
        | some r => intro h; simp at h
        | none =>
          by_cases hins : env.insertFails
          · intro h; simp [hins] at h
          · intro _
            simp [hins, newAttendanceRecord]
    · rw [if_neg ht]
      intro h; simp [invalidOutcome] at h

/-- Witness for C4 (amended) at a concrete successful scan with no
location captured: the record is inserted with all three fields null. -/
theorem scan_geolocation_amended_witness :
    (handleQRCodeScanned envW dbW payloadW "x").db.attendance_records =
      dbW.attendance_records ++
        [{ id := "r3", student_id := "u", course_id := "c1", checked_in_at := 10,
           latitude := none, longitude := none, location_accuracy := none }] := by
  have h := scan_geolocation_amended envW dbW payloadW "x" (by decide)
  simpa using h

/-- C9 counterexample: for the empty course id, the generator's payload
parses back to an object whose `course_id` is the empty string; that is
falsy, so `courseData.course_id || courseData.id` is `undefined` and the
scanner takes the Invalid QR Code branch instead of recovering the id. -/
theorem qr_roundtrip_counterexample :
    extractedCourseId (some (qrDataValue "" "Algebra" "MATH1" "ts")) "x" = none ∧
    (handleQRCodeScanned envW dbW (some (qrDataValue "" "Algebra" "MATH1" "ts")) "x").result
      = ScanResult.invalidQR :=
  ⟨rfl, rfl⟩

/-- C9 (amended): for every course with a *nonempty* id, the scanner's
parse of the generator's payload recovers exactly that id and never takes
the Invalid QR Code branch. -/
theorem qr_roundtrip_amended (cid cname ccode ts : String) (hc : cid ≠ "")
    (env : ScanEnv) (db : Db) (qrText : String) :
    extractedCourseId (some (qrDataValue cid cname ccode ts)) qrText =
      some (.jstr cid) ∧
    (handleQRCodeScanned env db (some (qrDataValue cid cname ccode ts)) qrText).result ≠
      ScanResult.invalidQR := by
  have hE : extractedCourseId (some (qrDataValue cid cname ccode ts)) qrText =
      some (.jstr cid) := by
    simp [extractedCourseId, qrDataValue, getField, lookupField, jsOr, jsTruthy, hc]
  refine ⟨hE, ?_⟩
  unfold handleQRCodeScanned
  rw [hE]
  dsimp only
  rw [if_pos (by simp [jsTruthy, hc])]
  unfold scanWithCourseId
  cases hq : scanQuery db (.jstr cid) with
  | none => simp
  | some course =>
    cases hd : dupQuery env db (.jstr cid) with
    | some r => simp
    | none => by_cases hins : env.insertFails <;> simp [hins]

/-- Witness for C9 (amended) at the concrete course id `c1`. -/
theorem qr_roundtrip_amended_witness :
    extractedCourseId (some (qrDataValue "c1" "Algebra" "MATH1" "ts")) "x" =
      some (.jstr "c1") ∧
    (handleQRCodeScanned envW dbW (some (qrDataValue "c1" "Algebra" "MATH1" "ts")) "x").result ≠
      ScanResult.invalidQR :=
  qr_roundtrip_amended "c1" "Algebra" "MATH1" "ts" (by decide) envW dbW "x"

/-- A missing or empty required field makes the zod parse fail. -/
theorem zodParseCourse_eq_none {name code : Option String} (sem yr : Option String)
    (h : name = none ∨ name = some "" ∨ code = none ∨ code = some "") :
    zodParseCourse name code sem yr = none := by
  rcases h with h | h | h | h
  · subst h; cases code <;> simp [zodParseCourse]
  · subst h; cases code <;> simp [zodParseCourse]
  · subst h; cases name <;> simp [zodParseCourse]
  · subst h; cases name <;> simp [zodParseCourse]

/-- C7: submitting the course form with a missing or empty name or code
fails zod validation before any database call — no call is issued, the
error is a destructive toast, and the database is unchanged; on a valid
form whose semester and year were omitted, the single insert carries
`semester = null` and `year = null`; and whenever the submission fails
(validation or database insert), the database is unchanged and the toast
is destructive. -/
theorem create_course_validation (env : CreateEnv) (db : Db)
    (name code semester year : Option String) :
    ((name = none ∨ name = some "" ∨ code = none ∨ code = some "") →
      (handleSubmit env db name code semester year).calls = [] ∧
      (handleSubmit env db name code semester year).toast.destructive = true ∧
      (handleSubmit env db name code semester year).db = db) ∧
    (∀ n c : String, name = some n → n ≠ "" → code = some c → c ≠ "" →
      (semester = none ∨ semester = some "") → (year = none ∨ year = some "") →
      (handleSubmit env db name code semester year).calls =
        [CreateCall.insertCourse
          { name := n, code := c, professor_id := env.userId,
            semester := none, year := none }]) ∧
    ((handleSubmit env db name code semester year).toast.destructive = true →
      (handleSubmit env db name code semester year).db = db) ∧
    (env.insertFails = true →
      (handleSubmit env db name code semester year).db = db ∧
      (handleSubmit env db name code semester year).toast.destructive = true) := by
  refine ⟨?_, ?_, ?_, ?_⟩
  · intro h
    unfold handleSubmit
    rw [zodParseCourse_eq_none _ _ h]
    exact ⟨rfl, rfl, rfl⟩
  · intro n c hn hne hc hce hsem hyr
    subst hn; subst hc
    unfold handleSubmit
    have hsem' : jsStrOrUndef semester = none := by
      rcases hsem with h | h <;> subst h <;> simp [jsStrOrUndef]
    have hyr' : jsStrOrUndef year = none := by
      rcases hyr with h | h <;> subst h <;> simp [jsStrOrUndef]
    rw [hsem', hyr']
    simp only [zodParseCourse, hne, hce]
    rw [if_neg (by simp [hne, hce])]
    by_cases hins : env.insertFails <;> simp [hins]
  · intro hdes
    revert hdes
    unfold handleSubmit
    cases hp : zodParseCourse name code (jsStrOrUndef semester) (jsStrOrUndef year) with
    | none => intro _; rfl
    | some data =>
      dsimp only
      by_cases hins : env.insertFails
      · rw [if_pos hins]; intro _; rfl
      · rw [if_neg hins]; intro hdes; exact absurd hdes (by simp)
  · intro hins
    unfold handleSubmit
    cases hp : zodParseCourse name code (jsStrOrUndef semester) (jsStrOrUndef year) with
    | none => exact ⟨rfl, rfl⟩
    | some data =>
      dsimp only
      rw [if_pos hins]
      exact ⟨rfl, rfl⟩

/-- Witness for C7: an empty course name is rejected with no database call
and no state change, and a valid form with omitted semester and year sends
an insert with both fields null. -/
theorem create_course_validation_witness :
    ((handleSubmit cenvW dbW (some "") (some "CS101") none none).calls = [] ∧
     (handleSubmit cenvW dbW (some "") (some "CS101") none none).toast.destructive = true ∧
     (handleSubmit cenvW dbW (some "") (some "CS101") none none).db = dbW) ∧
    (handleSubmit cenvW dbW (some "Intro") (some "CS101") none none).calls =
      [CreateCall.insertCourse
        { name := "Intro", code := "CS101", professor_id := "p",
          semester := none, year := none }] :=
  ⟨(create_course_validation cenvW dbW (some "") (some "CS101") none none).1
      (Or.inr (Or.inl rfl)),
   (create_course_validation cenvW dbW (some "Intro") (some "CS101") none none).2.1
      "Intro" "CS101" rfl (by decide) rfl (by decide) (Or.inl rfl) (Or.inl rfl)⟩

/-- C6: for an authenticated identity `uid`, the row-level security
policies on `attendance_records` permit an INSERT if and only if the new
row's `student_id` equals `auth.uid()`; an insert naming any other student
is rejected.  (The only INSERT policy is "Students can create own
attendance" with `WITH CHECK (student_id = auth.uid())`; Postgres
permissive policies are OR-combined per command.) -/
theorem attendance_insert_policy (ctx : RlsCtx) (uid : String) (row : AttendanceRecord)
    (h : ctx.authUid = some uid) :
    attendanceAllowed .insert ctx row = true ↔ row.student_id = uid := by
  simp [attendanceAllowed, attendancePolicies, h]

/-- Witness for C6: with `auth.uid() = u`, inserting a row for student `u`
is allowed and inserting a row for student `u` under identity `v` is not. -/
theorem attendance_insert_policy_witness :
    attendanceAllowed .insert { authUid := some "u", user_roles := [] } recW1 = true ∧
    ¬ attendanceAllowed .insert { authUid := some "v", user_roles := [] } recW1 = true :=
  ⟨(attendance_insert_policy { authUid := some "u", user_roles := [] } "u" recW1 rfl).mpr rfl,
   fun hcontra =>
     absurd ((attendance_insert_policy { authUid := some "v", user_roles := [] } "v"
       recW1 rfl).mp hcontra) (by decide)⟩

/-- Pairwise distinctness of `(user_id, role)` bounds every filter on a
concrete pair by one row. -/
theorem userRoles_count_le_one (u : String) (r : AppRole) :
    ∀ rows : List UserRole, userRolesUnique rows →
      (rows.filter (fun x => decide (x.user_id = u) && decide (x.role = r))).length ≤ 1 := by
  intro rows
  induction rows with
  | nil => intro _; simp
  | cons a t ih =>
    intro h
    rw [userRolesUnique, List.pairwise_cons] at h
    obtain ⟨ha, ht⟩ := h
    by_cases hp : (decide (a.user_id = u) && decide (a.role = r)) = true
    · have hfilter : t.filter (fun x => decide (x.user_id = u) && decide (x.role = r)) = [] := by
        rw [List.filter_eq_nil_iff]
        intro x hx
        simp only [Bool.and_eq_true, decide_eq_true_eq] at hp ⊢
        rintro ⟨h1, h2⟩
        exact ha x hx ⟨hp.1.trans h1.symm, hp.2.trans h2.symm⟩
      simp [List.filter_cons, hp, hfilter]
    · rw [Bool.not_eq_true] at hp
      simp only [List.filter_cons, hp, Bool.false_eq_true, if_false]
      exact ih ht

/-- C8: the migration's integrity is database-level: the `UNIQUE(user_id,
role)` constraint bounds, for every user and role, the number of pairing
rows by one; every declared foreign key (profiles.id, user_roles.user_id,
courses.professor_id, attendance_records.student_id, and
attendance_records.course_id) carries `ON DELETE CASCADE`; and the cascade
semantics hold: deleting an `auth.users` row or a course leaves no row
referencing it, and preserves referential integrity. -/
theorem schema_constraints :
    (∀ fk ∈ schemaForeignKeys, fk.onDeleteCascade = true) ∧
    ({ table := "profiles", column := "id", refTable := "auth.users",
       refColumn := "id", onDeleteCascade := true } ∈ schemaForeignKeys ∧
     { table := "user_roles", column := "user_id", refTable := "auth.users",
       refColumn := "id", onDeleteCascade := true } ∈ schemaForeignKeys ∧
     { table := "courses", column := "professor_id", refTable := "auth.users",
       refColumn := "id", onDeleteCascade := true } ∈ schemaForeignKeys ∧
     { table := "attendance_records", column := "student_id", refTable := "auth.users",
       refColumn := "id", onDeleteCascade := true } ∈ schemaForeignKeys ∧
     { table := "attendance_records", column := "course_id", refTable := "courses",
       refColumn := "id", onDeleteCascade := true } ∈ schemaForeignKeys) ∧
    (∀ rows : List UserRole, userRolesUnique rows → ∀ u r,
      (rows.filter (fun x => decide (x.user_id = u) && decide (x.role = r))).length ≤ 1) ∧
    (∀ db uid,
      (∀ p ∈ (deleteAuthUser db uid).profiles, p.id ≠ uid) ∧
      (∀ ur ∈ (deleteAuthUser db uid).user_roles, ur.user_id ≠ uid) ∧
      (∀ c ∈ (deleteAuthUser db uid).courses, c.professor_id ≠ uid) ∧
      (∀ a ∈ (deleteAuthUser db uid).attendance_records, a.student_id ≠ uid)) ∧
    (∀ db cid,
      (∀ c ∈ (deleteCourse db cid).courses, c.id ≠ cid) ∧
      (∀ a ∈ (deleteCourse db cid).attendance_records, a.course_id ≠ cid)) ∧
    (∀ db uid, refIntegrity db → refIntegrity (deleteAuthUser db uid)) := by
  refine ⟨by decide, by decide, fun rows h u r => userRoles_count_le_one u r rows h,
    ?_, ?_, ?_⟩
  · intro db uid
    refine ⟨?_, ?_, ?_, ?_⟩
    · intro p hp
      have := (List.mem_filter.mp hp).2
      simpa using this
    · intro ur hur
      have := (List.mem_filter.mp hur).2
      simpa using this
    · intro c hc
      have := (List.mem_filter.mp hc).2
      simpa using this
    · intro a ha
      have := (List.mem_filter.mp ha).2
      simp only [Bool.and_eq_true, Bool.not_eq_true', beq_eq_false_iff_ne] at this
      exact this.1
  · intro db cid
    refine ⟨?_, ?_⟩
    · intro c hc
      have := (List.mem_filter.mp hc).2
      simpa using this
    · intro a ha
      have := (List.mem_filter.mp ha).2
      simpa using this
  · intro db uid h
    obtain ⟨h1, h2, h3, h4⟩ := h
    refine ⟨?_, ?_, ?_, ?_⟩
    · intro p hp
      obtain ⟨hmem, hpred⟩ := List.mem_filter.mp hp
      exact List.mem_filter.mpr ⟨h1 p hmem, hpred⟩
    · intro ur hur
      obtain ⟨hmem, hpred⟩ := List.mem_filter.mp hur
      exact List.mem_filter.mpr ⟨h2 ur hmem, hpred⟩
    · intro c hc
      obtain ⟨hmem, hpred⟩ := List.mem_filter.mp hc
      exact List.mem_filter.mpr ⟨h3 c hmem, hpred⟩
    · intro a ha
      obtain ⟨hmem, hpred⟩ := List.mem_filter.mp ha
      simp only [Bool.and_eq_true] at hpred
      obtain ⟨hstu, hnoc⟩ := hpred
      refine ⟨List.mem_filter.mpr ⟨(h4 a hmem).1, hstu⟩, ?_⟩
      obtain ⟨c, hcmem, hcid⟩ := List.mem_map.mp (h4 a hmem).2
      refine List.mem_map.mpr ⟨c, List.mem_filter.mpr ⟨hcmem, ?_⟩, hcid⟩
      simp only [Bool.not_eq_true', List.any_eq_false] at hnoc
      have hthis := hnoc c hcmem
      rw [hcid] at hthis
      simp only [beq_self_eq_true, Bool.and_true, Bool.not_eq_true] at hthis
      simp [hthis]

/-- Witness for C8: a concrete `user_roles` table satisfying the UNIQUE
constraint has at most one row for a given (user, role) pair. -/
theorem schema_constraints_witness :
    (([{ id := "a", user_id := "u1", role := AppRole.student },
       { id := "b", user_id := "u1", role := AppRole.professor }] : List UserRole).filter
        (fun x => decide (x.user_id = "u1") && decide (x.role = AppRole.student))).length ≤ 1 :=
  schema_constraints.2.2.1 _
    (by
      rw [userRolesUnique]
      refine List.Pairwise.cons ?_ (List.pairwise_singleton _ _)
      intro b hb
      rw [List.mem_singleton] at hb
      subst hb
      simp)
    "u1" AppRole.student

/-- A draw `Math.floor(r * n)` with `0 ≤ r < 1` lies in `[0, n)`. -/
theorem floor_mul_bounds {r : Rat} (h0 : 0 ≤ r) (h1 : r < 1) (n : Nat) (hn : 0 < n) :
    0 ≤ Int.floor (r * (n : Rat)) ∧ Int.floor (r * (n : Rat)) < (n : Int) := by
  constructor
  · exact Int.floor_nonneg.mpr (by positivity)
  · rw [Int.floor_lt]
    push_cast
    have hn' : (0 : Rat) < (n : Rat) := by exact_mod_cast hn
    calc r * (n : Rat) < 1 * (n : Rat) := by exact mul_lt_mul_of_pos_right h1 hn'
    _ = (n : Rat) := one_mul _

/-- The per-course student count draw lies in `[15, 44]`. -/
theorem studentCountDraw_bounds {r : Rat} (h0 : 0 ≤ r) (h1 : r < 1) :
    15 ≤ studentCountDraw r ∧ studentCountDraw r ≤ 44 := by
  unfold studentCountDraw
  obtain ⟨hl, hu⟩ := floor_mul_bounds h0 h1 30 (by norm_num)
  push_cast at hl hu
  omega

/-- The attendance draw lies in `[40, 89]`. -/
theorem attendanceDraw_bounds {r : Rat} (h0 : 0 ≤ r) (h1 : r < 1) :
    40 ≤ attendanceDraw r ∧ attendanceDraw r ≤ 89 := by
  unfold attendanceDraw
  obtain ⟨hl, hu⟩ := floor_mul_bounds h0 h1 50 (by norm_num)
  push_cast at hl hu
  omega

/-- A random index into a nonempty list is in bounds. -/
theorem randIndex_lt {r : Rat} (h0 : 0 ≤ r) (h1 : r < 1) {n : Nat} (hn : 0 < n) :
    randIndex r n < n := by
  unfold randIndex
  obtain ⟨hl, hu⟩ := floor_mul_bounds h0 h1 n hn
  omega

/-- An in-bounds `getD` returns a member of the list. -/
theorem getD_mem_of_lt {l : List String} {i : Nat} (h : i < l.length) (d : String) :
    l.getD i d ∈ l := by
  rw [List.getD_eq_getElem?_getD, List.getElem?_eq_getElem h]
  exact List.getElem_mem h

/-- The inner loop generates exactly the drawn number of students. -/
theorem genStudentsAux_length (course : Course) (rng : Nat → Rat) :
    ∀ n i k, (genStudentsAux course rng n i k).length = n := by
  intro n
  induction n with
  | zero => intro i k; rfl
  | succ n ih => intro i k; simp [genStudentsAux, ih]

/-- Every student of the inner loop is a `genStudent` at some positions. -/
theorem mem_genStudentsAux (course : Course) (rng : Nat → Rat) :
    ∀ (n i k : Nat) (s : FakeStudent), s ∈ genStudentsAux course rng n i k →
      ∃ j m, s = genStudent course j rng m := by
  intro n
  induction n with
  | zero => intro i k s h; simp [genStudentsAux] at h
  | succ n ih =>
    intro i k s h
    rw [genStudentsAux] at h
    rcases List.mem_cons.mp h with h1 | h1
    · exact ⟨i, k, h1⟩
    · exact ih (i + 1) (k + 3) s h1

/-- Every generated student comes from `genStudent` on some course of the
input list. -/
theorem mem_loadFakeData (rng : Nat → Rat) :
    ∀ (courses : List Course) (k : Nat) (s : FakeStudent),
      s ∈ loadFakeData courses rng k →
      ∃ course j m, course ∈ courses ∧ s = genStudent course j rng m := by
  intro courses
  induction courses with
  | nil => intro k s h; simp [loadFakeData] at h
  | cons course rest ih =>
    intro k s h
    rw [loadFakeData] at h
    rcases List.mem_append.mp h with h1 | h1
    · obtain ⟨j, m, hs⟩ := mem_genStudentsAux course rng _ _ _ s h1
      exact ⟨course, j, m, List.mem_cons_self _ _, hs⟩
    · obtain ⟨c2, j, m, hc, hs⟩ := ih _ s h1
      exact ⟨c2, j, m, List.mem_cons_of_mem _ hc, hs⟩

/-- A list of integers bounded in `[a, b]` has its sum in
`[a * length, b * length]`. -/
theorem sum_bounds_of_mem {l : List Int} {a b : Int}
    (h : ∀ x ∈ l, a ≤ x ∧ x ≤ b) :
    a * l.length ≤ l.sum ∧ l.sum ≤ b * l.length := by
  induction l with
  | nil => simp
  | cons x t ih =>
    have hx := h x (List.mem_cons_self _ _)
    have ht := ih (fun y hy => h y (List.mem_cons_of_mem _ hy))
    simp only [List.sum_cons, List.length_cons]
    push_cast
    constructor
    · nlinarith [ht.1, hx.1]
    · nlinarith [ht.2, hx.2]

/-- `Math.round` of a rational in `[a, b]` (integer bounds) stays in `[a, b]`. -/
theorem jsRound_bounds {q : Rat} {a b : Int} (h1 : (a : Rat) ≤ q) (h2 : q ≤ (b : Rat)) :
    a ≤ jsRound q ∧ jsRound q ≤ b := by
  unfold jsRound
  constructor
  · apply Int.le_floor.mpr
    linarith
  · have hlt : q + 1 / 2 < ((b + 1 : Int) : Rat) := by push_cast; linarith
    have := Int.floor_lt.mpr hlt
    omega

/-- C10: with any random stream taking values in `[0, 1)` (the contract of
`Math.random()`), every course generates between 15 and 44 students — not
the 15 to 45 the inline comment announces; every generated attendance lies
in `[40, 89]` — not 40 to 90; and every chart entry backed by at least one
student shows a rounded average attendance in `[40, 89]`. -/
theorem analytics_ranges (courses : List Course) (rng : Nat → Rat)
    (hr : ∀ n, 0 ≤ rng n ∧ rng n < 1) :
    (∀ (course : Course) (k : Nat),
       15 ≤ (genStudentsForCourse course rng k).1.length ∧
       (genStudentsForCourse course rng k).1.length ≤ 44) ∧
    (∀ s ∈ loadFakeDataStudents courses rng, 40 ≤ s.attendance ∧ s.attendance ≤ 89) ∧
    (∀ e ∈ courseAttendanceData courses (loadFakeDataStudents courses rng),
       0 < e.studentCount → 40 ≤ e.averageAttendance ∧ e.averageAttendance ≤ 89) := by
  have hatt : ∀ s ∈ loadFakeDataStudents courses rng,
      40 ≤ s.attendance ∧ s.attendance ≤ 89 := by
    intro s hs
    obtain ⟨course, j, m, _, hsEq⟩ := mem_loadFakeData rng courses 0 s hs
    subst hsEq
    show 40 ≤ attendanceDraw (rng (m + 2)) ∧ attendanceDraw (rng (m + 2)) ≤ 89
    exact attendanceDraw_bounds (hr (m + 2)).1 (hr (m + 2)).2
  refine ⟨?_, hatt, ?_⟩
  · intro course k
    have hl : (genStudentsForCourse course rng k).1.length = studentCountDraw (rng k) :=
      genStudentsAux_length course rng (studentCountDraw (rng k)) 0 (k + 1)
    rw [hl]
    exact studentCountDraw_bounds (hr k).1 (hr k).2
  · intro e he hpos
    obtain ⟨course, hcmem, heq⟩ := List.mem_map.mp he
    subst heq
    dsimp only at hpos ⊢
    rw [if_pos hpos]
    have hbounds : ∀ x ∈ (courseStudents (loadFakeDataStudents courses rng) course).map
        FakeStudent.attendance, 40 ≤ x ∧ x ≤ 89 := by
      intro x hx
      obtain ⟨s, hsmem, hxeq⟩ := List.mem_map.mp hx
      subst hxeq
      exact hatt s (List.mem_filter.mp hsmem).1
    obtain ⟨hsum1, hsum2⟩ := sum_bounds_of_mem hbounds
    rw [List.length_map] at hsum1 hsum2
    have hlen : (0 : Rat) <
        ((courseStudents (loadFakeDataStudents courses rng) course).length : Rat) := by
      exact_mod_cast hpos
    have hq1 : ((40 : Int) : Rat) ≤
        ((((courseStudents (loadFakeDataStudents courses rng) course).map
            FakeStudent.attendance).sum : Int) : Rat) /
          ((courseStudents (loadFakeDataStudents courses rng) course).length : Rat) := by
      rw [le_div_iff₀ hlen]
      exact_mod_cast hsum1
    have hq2 : ((((courseStudents (loadFakeDataStudents courses rng) course).map
            FakeStudent.attendance).sum : Int) : Rat) /
          ((courseStudents (loadFakeDataStudents courses rng) course).length : Rat) ≤
        ((89 : Int) : Rat) := by
      rw [div_le_iff₀ hlen]
      exact_mod_cast hsum2
    exact jsRound_bounds hq1 hq2

/-- Witness for C10: at the constant stream 1/2 and a concrete course the
generated class size lies in the claimed range. -/
theorem analytics_ranges_witness :
    15 ≤ (genStudentsForCourse courseW rngHalf 0).1.length ∧
    (genStudentsForCourse courseW rngHalf 0).1.length ≤ 44 :=
  (analytics_ranges [courseW] rngHalf
      (fun n => ⟨by norm_num [rngHalf], by norm_num [rngHalf]⟩)).1 courseW 0

/-- C5: every fake student's name and email are assembled from the two
hard-coded name pools — `loadFakeData`'s only inputs are the course list
and the random stream, never the database — and `handleSendEmails`
performs no email or network operation: it leaves the student list
unchanged, issues no network call, and in the branch with at least one
low-attendance student merely awaits the 1.5-second timeout before
reporting success (with none, it raises a destructive toast and returns
at once). -/
theorem analytics_fake_data (courses : List Course) (rng : Nat → Rat)
    (hr : ∀ n, 0 ≤ rng n ∧ rng n < 1) (students : List FakeStudent) :
    (∀ s ∈ loadFakeDataStudents courses rng, ∃ f ∈ firstNames, ∃ l ∈ lastNames,
        s.name = f ++ " " ++ l ∧
        s.email = f.toLower ++ "." ++ l.toLower ++ "@student.edu") ∧
    (handleSendEmails students).students = students ∧
    (handleSendEmails students).netOps = [] ∧
    ((lowAttendanceStudents students).length ≠ 0 →
      (handleSendEmails students).delayedMs = some 1500 ∧
      (handleSendEmails students).toast =
        { destructive := false, title := "Warning emails sent!" }) ∧
    ((lowAttendanceStudents students).length = 0 →
      (handleSendEmails students).delayedMs = none ∧
      (handleSendEmails students).toast =
        { destructive := true, title := "No students to email" }) := by
  refine ⟨?_, ?_, ?_, ?_, ?_⟩
  · intro s hs
    obtain ⟨course, j, m, _, hsEq⟩ := mem_loadFakeData rng courses 0 s hs
    subst hsEq
    refine ⟨firstNames.getD (randIndex (rng m) firstNames.length) "", ?_,
            lastNames.getD (randIndex (rng (m + 1)) lastNames.length) "", ?_, rfl, rfl⟩
    · exact getD_mem_of_lt
        (randIndex_lt (hr m).1 (hr m).2 (by decide : 0 < firstNames.length)) _
    · exact getD_mem_of_lt
        (randIndex_lt (hr (m + 1)).1 (hr (m + 1)).2 (by decide : 0 < lastNames.length)) _
  · unfold handleSendEmails
    by_cases h0 : (lowAttendanceStudents students).length = 0 <;> simp [h0]
  · unfold handleSendEmails
    by_cases h0 : (lowAttendanceStudents students).length = 0 <;> simp [h0]
  · intro h0
    unfold handleSendEmails
    rw [if_neg h0]
    exact ⟨rfl, rfl⟩
  · intro h0
    unfold handleSendEmails
    rw [if_pos h0]
    exact ⟨rfl, rfl⟩

/-- Witness for C5 at a concrete student list: the simulated send touches
no state and reports success after the 1.5-second wait. -/
theorem analytics_fake_data_witness :
    (handleSendEmails [studentW]).students = [studentW] ∧
    (handleSendEmails [studentW]).netOps = [] ∧
    (handleSendEmails [studentW]).delayedMs = some 1500 :=
  have h := analytics_fake_data [] rngHalf
    (fun n => ⟨by norm_num [rngHalf], by norm_num [rngHalf]⟩) [studentW]
  ⟨h.2.1, h.2.2.1, (h.2.2.2.1 (by decide)).1⟩

/-- Witness for C1 at a concrete successful scan: the insert call is
issued, so all three calls happened in order. -/
theorem scan_call_sequence_witness :
    DbCall.insertAttendance (newAttendanceRecord envW (cidOf payloadW "x"))
      ∈ (handleQRCodeScanned envW dbW payloadW "x").calls :=
  (scan_call_sequence envW dbW payloadW "x").2.2.2.mpr ⟨rfl, rfl, rfl⟩
